import Mathlib

/-
Verification of the blocking LDAP bridge (src/sync.rs) of the ldap3 fork.

The file embeds the synchronous facade LdapConn and the streaming handle
EntryStream from src/sync.rs. The collaborators that live outside src/
(crate::ldap::Ldap, crate::search::SearchStream, crate::conn::LdapConnSettings,
the error taxonomy of crate::result) are modelled from the specification, as
marked on each definition.

Modelling decisions, shared by all definitions below:
- The Tokio runtime behind Arc<Runtime> is represented by its identity rtId
  together with the strong reference count rtStrong of the Arc allocation as
  seen by the holder. Arc::get_mut succeeds exactly when the count is 1;
  the source then calls .expect, i.e. panics, when it is not.
- block_on of the basic (current-thread) scheduler is embedded as plain
  function application: the async operation is a function from the session
  state to a result, a new session state, and the list of protocol messages
  it put on the wire (the network trace).
- A blocking call either panics (SyncResult.panicked with the message of the
  .expect in the source) or returns the value of the awaited future.
-/

namespace LdapSync

/-- Request identifier (crate::RequestId): the message id of an operation. -/
abbrev RequestId := Nat

/-- A protocol message on the wire, identified by the request id it carries.
Used to observe whether an operation performs network activity. -/
abbrev NetMsg := Nat

/-- Modelled from the spec: search scope of crate::search::Scope. -/
inductive Scope
  | base
  | oneLevel
  | subtree
deriving DecidableEq

/-- Modelled from the spec: an opaque directory entry as produced by the
streaming cursor (crate::search::ResultEntry); its payload is irrelevant
here so it is a single opaque field. -/
structure ResultEntry where
  raw : Nat
deriving DecidableEq

/-- Modelled from the spec: the final protocol result of an operation
(crate::result::LdapResult), carrying the protocol result code. -/
structure LdapResult where
  rc : Nat
  text : String
deriving DecidableEq

/-- Modelled from the spec: a non-streaming search returns every matching
entry plus the final protocol result as one in-memory batch
(crate::result::SearchResult). -/
structure SearchResult where
  entries : List ResultEntry
  res : LdapResult
deriving DecidableEq

/-- Modelled from the spec, section 7: the error taxonomy of crate::result.
DriverUnavailable of section 4.1 and ExclusiveAccessError of section 9 name
the same condition; one constructor stands for both. -/
inductive LdapError
  | ConnectionError
  | ProtocolError (rc : Nat)
  | ExclusiveAccessError
  | ProtocolSequenceError
  | SessionClosed
  | Timeout
deriving DecidableEq

/-- Fallible results of the underlying async session (crate::result::Result). -/
abbrev Result (α : Type) := Except LdapError α

/-- Modelled from the spec: per-connection search options
(crate::search::SearchOptions), opaque here. -/
structure SearchOptions where
  raw : Nat
deriving DecidableEq

/-- A raw protocol control after IntoRawControlVec conversion, opaque here. -/
abbrev RawControl := Nat

/-- Operation timeout (std::time::Duration), in opaque units. -/
abbrev Duration := Nat

/-- The message of the .expect call guarding Arc::get_mut on the runtime in
every blocking method of src/sync.rs. -/
def runtimeRefMsg : String := "runtime ref"

/-- The empty string, used as a concrete argument in closed instances. -/
def emptyStr : String := ""

/-- Outcome of a blocking call: either the value the awaited future produced,
or a panic raised by the .expect on Arc::get_mut. -/
inductive SyncResult (α : Type)
  | panicked (msg : String)
  | ok (a : α)
deriving DecidableEq

/-- Modelled from the spec, section 6: the async streaming cursor
(crate::search::SearchStream, not under src/). It knows the request id of
the search, the entries it will still yield, and the final protocol result
it will report on finish. -/
structure SearchStream where
  reqId : RequestId
  remaining : List ResultEntry
  finalRes : LdapResult
deriving DecidableEq

/-- Modelled from the spec, sections 4.3 and 6: the next-entry step of the
cursor. It yields the next entry after one protocol exchange, or the
end-of-stream sentinel with no further protocol exchange once exhausted. -/
def SearchStream.next (s : SearchStream) :
    Result (Option ResultEntry) × SearchStream × List NetMsg :=
  match s.remaining with
  | [] => (.ok none, s, [])
  | e :: rest => (.ok (some e), { s with remaining := rest }, [s.reqId])

/-- Modelled from the spec, section 6: the synchronous finish step of the
cursor yields the final result of the whole search. -/
def SearchStream.finish (s : SearchStream) : LdapResult :=
  s.finalRes

/-- Modelled from the spec, section 4.3: the id of the search operation. -/
def SearchStream.last_id (s : SearchStream) : RequestId :=
  s.reqId

/-- Behaviour of the external async session on each modelled verb: the result
each driven future resolves to, as a function of its arguments. Surfaced
verbatim by the facade, so left fully abstract. -/
structure Oracle where
  simpleBind : String → String → Result LdapResult
  searchAll : String → Scope → String → List String → Result SearchResult
  streamingSearch : String → Scope → String → List String → Result (List ResultEntry × LdapResult)
  deleteDn : String → Result LdapResult

/-- Modelled from the spec, sections 3, 4.2 and 7: the async session handle
(crate::ldap::Ldap, not under src/). The three configuration fields are the
ones src/sync.rs assigns directly (search_opts, controls, timeout); closed
records that unbind tore the session down; lastId is the monotonically
assigned id of the most recently issued operation. -/
structure Ldap where
  search_opts : Option SearchOptions
  controls : Option (List RawControl)
  timeout : Option Duration
  closed : Bool
  lastId : RequestId
  oracle : Oracle

/-- Modelled from the spec, sections 4.2 and 7: an async simple bind. On a
closed session it fails with SessionClosed and touches the network not at
all; otherwise it issues one message under a fresh request id and resolves
to whatever the server side answers. -/
def Ldap.simple_bind (bind_dn bind_pw : String) (l : Ldap) :
    Result LdapResult × Ldap × List NetMsg :=
  if l.closed then (.error .SessionClosed, l, [])
  else (l.oracle.simpleBind bind_dn bind_pw, { l with lastId := l.lastId + 1 }, [l.lastId + 1])

/-- Modelled from the spec, sections 4.2 and 7: an async non-streaming search. -/
def Ldap.search (base : String) (scope : Scope) (filter : String) (attrs : List String)
    (l : Ldap) : Result SearchResult × Ldap × List NetMsg :=
  if l.closed then (.error .SessionClosed, l, [])
  else (l.oracle.searchAll base scope filter attrs, { l with lastId := l.lastId + 1 }, [l.lastId + 1])

/-- Modelled from the spec, sections 4.2 and 7: an async delete. -/
def Ldap.delete (dn : String) (l : Ldap) : Result LdapResult × Ldap × List NetMsg :=
  if l.closed then (.error .SessionClosed, l, [])
  else (l.oracle.deleteDn dn, { l with lastId := l.lastId + 1 }, [l.lastId + 1])

/-- Modelled from the spec, sections 4.2 and 7: an async abandon request. -/
def Ldap.abandon (msgid : RequestId) (l : Ldap) : Result Unit × Ldap × List NetMsg :=
  if l.closed then (.error .SessionClosed, l, [])
  else (.ok (), { l with lastId := l.lastId + 1 }, [l.lastId + 1])

/-- Modelled from the spec, sections 4.2 and 7: async session teardown. After
it succeeds the session is closed; a second teardown fails with
SessionClosed like every other verb. -/
def Ldap.unbind (l : Ldap) : Result Unit × Ldap × List NetMsg :=
  if l.closed then (.error .SessionClosed, l, [])
  else (.ok (), { l with closed := true, lastId := l.lastId + 1 }, [l.lastId + 1])

/-- Modelled from the spec, sections 4.2 and 6: the async streaming-search
constructor drives only the start of the search and returns the cursor,
which carries the request id just issued. -/
def Ldap.streaming_search (base : String) (scope : Scope) (filter : String)
    (attrs : List String) (l : Ldap) : Result SearchStream × Ldap × List NetMsg :=
  if l.closed then (.error .SessionClosed, l, [])
  else
    match l.oracle.streamingSearch base scope filter attrs with
    | .error e => (.error e, { l with lastId := l.lastId + 1 }, [l.lastId + 1])
    | .ok (entries, fin) =>
        (.ok { reqId := l.lastId + 1, remaining := entries, finalRes := fin },
         { l with lastId := l.lastId + 1 }, [l.lastId + 1])

/-- Modelled from the spec, section 4.2: the id of the most recently issued
operation, read off without touching the driver. -/
def Ldap.last_id (l : Ldap) : RequestId :=
  l.lastId

/-- The synchronous connection of src/sync.rs, lines 26 to 30: a Tokio
runtime behind an Arc plus the async session handle. rtId is the identity
of the runtime allocation, rtStrong the strong count of the Arc. -/
structure LdapConn where
  rtId : Nat
  rtStrong : Nat
  ldap : Ldap

/-- The blocking-call pattern shared by every LdapConn verb in src/sync.rs
(for example lines 81 to 85): Arc::get_mut on the runtime, which succeeds
exactly when the strong count is 1, then .expect with the runtime ref
message, then block_on of the async operation. With a shared runtime the
call panics before any work runs. -/
def LdapConn.runOp {α : Type} (c : LdapConn) (op : Ldap → α × Ldap × List NetMsg) :
    SyncResult α × LdapConn × List NetMsg :=
  if c.rtStrong = 1 then
    (.ok (op c.ldap).1, { c with ldap := (op c.ldap).2.1 }, (op c.ldap).2.2)
  else (.panicked runtimeRefMsg, c, [])

/-- LdapConn::simple_bind, src/sync.rs lines 81 to 85. -/
def LdapConn.simple_bind (c : LdapConn) (bind_dn bind_pw : String) :
    SyncResult (Result LdapResult) × LdapConn × List NetMsg :=
  c.runOp (Ldap.simple_bind bind_dn bind_pw)

/-- LdapConn::search, src/sync.rs lines 101 to 111. -/
def LdapConn.search (c : LdapConn) (base : String) (scope : Scope) (filter : String)
    (attrs : List String) : SyncResult (Result SearchResult) × LdapConn × List NetMsg :=
  c.runOp (Ldap.search base scope filter attrs)

/-- LdapConn::delete, src/sync.rs lines 157 to 161. -/
def LdapConn.delete (c : LdapConn) (dn : String) :
    SyncResult (Result LdapResult) × LdapConn × List NetMsg :=
  c.runOp (Ldap.delete dn)

/-- LdapConn::abandon, src/sync.rs lines 210 to 214. -/
def LdapConn.abandon (c : LdapConn) (msgid : RequestId) :
    SyncResult (Result Unit) × LdapConn × List NetMsg :=
  c.runOp (Ldap.abandon msgid)

/-- LdapConn::unbind, src/sync.rs lines 188 to 192. -/
def LdapConn.unbind (c : LdapConn) :
    SyncResult (Result Unit) × LdapConn × List NetMsg :=
  c.runOp Ldap.unbind

/-- LdapConn::last_id, src/sync.rs lines 205 to 207: plain delegation to the
session handle, with no Arc::get_mut and no block_on. -/
def LdapConn.last_id (c : LdapConn) : RequestId :=
  c.ldap.last_id

/-- LdapConn::with_search_options, src/sync.rs lines 63 to 66. -/
def LdapConn.with_search_options (c : LdapConn) (opts : SearchOptions) : LdapConn :=
  { c with ldap := { c.ldap with search_opts := some opts } }

/-- LdapConn::with_controls, src/sync.rs lines 69 to 72, after the
IntoRawControlVec conversion of the argument. -/
def LdapConn.with_controls (c : LdapConn) (ctrls : List RawControl) : LdapConn :=
  { c with ldap := { c.ldap with controls := some ctrls } }

/-- LdapConn::with_timeout, src/sync.rs lines 75 to 78. -/
def LdapConn.with_timeout (c : LdapConn) (duration : Duration) : LdapConn :=
  { c with ldap := { c.ldap with timeout := some duration } }

/-- The streaming handle of src/sync.rs, lines 225 to 228: the cursor plus a
clone of the Arc around the runtime of the parent connection. Its rtId and
rtStrong describe the same allocation as the parent. -/
structure EntryStream where
  stream : SearchStream
  rtId : Nat
  rtStrong : Nat
deriving DecidableEq

/-- EntryStream::next, src/sync.rs lines 232 to 236: the same Arc::get_mut
plus .expect pattern as the facade verbs, then block_on of the cursor step. -/
def EntryStream.next (es : EntryStream) :
    SyncResult (Result (Option ResultEntry)) × EntryStream × List NetMsg :=
  if es.rtStrong = 1 then
    (.ok (es.stream.next).1, { es with stream := (es.stream.next).2.1 }, (es.stream.next).2.2)
  else (.panicked runtimeRefMsg, es, [])

/-- EntryStream::result, src/sync.rs lines 241 to 243: consumes the handle
(the Rust receiver is by value) and synchronously delegates to the finish
step of the cursor. No driver access, hence no panic path. -/
def EntryStream.result (es : EntryStream) : LdapResult :=
  es.stream.finish

/-- EntryStream::last_id, src/sync.rs lines 246 to 248. -/
def EntryStream.last_id (es : EntryStream) : RequestId :=
  es.stream.last_id

/-- LdapConn::streaming_search, src/sync.rs lines 116 to 131: drive the start
of the streaming search; on success wrap the cursor together with a clone
of the runtime Arc (raising the strong count of the shared allocation by
one on both sides); on failure propagate the error without cloning. -/
def LdapConn.streaming_search (c : LdapConn) (base : String) (scope : Scope)
    (filter : String) (attrs : List String) :
    SyncResult (Result EntryStream) × LdapConn × List NetMsg :=
  if c.rtStrong = 1 then
    match Ldap.streaming_search base scope filter attrs c.ldap with
    | (.error e, l2, msgs) => (.ok (.error e), { c with ldap := l2 }, msgs)
    | (.ok stream, l2, msgs) =>
        (.ok (.ok { stream := stream, rtId := c.rtId, rtStrong := c.rtStrong + 1 }),
         { c with ldap := l2, rtStrong := c.rtStrong + 1 }, msgs)
  else (.panicked runtimeRefMsg, c, [])

/-- Modelled from the spec, section 6: the connection settings object
(crate::conn::LdapConnSettings, not under src/): certificate validation
on or off, StartTLS on or off, optional trusted root CA bytes, optional
literal IP override. -/
structure LdapConnSettings where
  no_tls_verify : Bool
  starttls : Bool
  root_ca : Option (List Nat)
  ip_address : Option String
deriving DecidableEq

/-- Modelled from the spec: the default settings object, with certificate
validation on, StartTLS off and the optional fields absent. -/
def LdapConnSettings.defaultSettings : LdapConnSettings :=
  { no_tls_verify := false, starttls := false, root_ca := none, ip_address := none }

/-- Modelled from the spec: LdapConnSettings::new yields the defaults. -/
def LdapConnSettings.new : LdapConnSettings :=
  LdapConnSettings.defaultSettings

/-- Environment of a connection attempt: what async connection establishment
(LdapConnAsync::with_settings plus the drive macro, outside src/) resolves
to for given settings and url, and the identity of the runtime that
with_settings freshly builds. -/
structure ConnectWorld where
  connect : LdapConnSettings → String → Result Ldap
  freshRtId : Nat

/-- LdapConn::with_settings, src/sync.rs lines 43 to 60: build a fresh
runtime, drive connection establishment on it, and on success wrap the
session with the runtime behind a brand-new Arc (strong count 1). -/
def LdapConn.with_settings (w : ConnectWorld) (settings : LdapConnSettings)
    (url : String) : Result LdapConn :=
  match w.connect settings url with
  | .error e => .error e
  | .ok l => .ok { rtId := w.freshRtId, rtStrong := 1, ldap := l }

/-- LdapConn::new, src/sync.rs lines 35 to 37: delegation to with_settings
with LdapConnSettings::new(). -/
def LdapConn.new (w : ConnectWorld) (url : String) : Result LdapConn :=
  LdapConn.with_settings w LdapConnSettings.new url

/-- First k results of repeatedly calling next on a streaming handle. -/
def nextSeq : Nat → EntryStream → List (SyncResult (Result (Option ResultEntry)))
  | 0, _ => []
  | k + 1, es => (es.next).1 :: nextSeq k (es.next).2.1

/-- A successful protocol result with code 0, for concrete instances. -/
def okResult : LdapResult :=
  { rc := 0, text := emptyStr }

/-- A concrete session oracle whose verbs all succeed and whose streaming
search yields two entries. -/
def oracle0 : Oracle :=
  { simpleBind := fun _ _ => .ok okResult
    searchAll := fun _ _ _ _ => .ok { entries := [], res := okResult }
    streamingSearch := fun _ _ _ _ => .ok ([{ raw := 1 }, { raw := 2 }], okResult)
    deleteDn := fun _ => .ok okResult }

/-- A concrete open session in its initial state. -/
def ldap0 : Ldap :=
  { search_opts := none, controls := none, timeout := none,
    closed := false, lastId := 0, oracle := oracle0 }

/-- A concrete connection holding the only reference to its runtime. -/
def conn1 : LdapConn :=
  { rtId := 7, rtStrong := 1, ldap := ldap0 }

/-- The same connection while its runtime Arc is shared with a live
streaming handle: strong count 2, exactly the state streaming_search
leaves the facade in. -/
def conn2 : LdapConn :=
  { rtId := 7, rtStrong := 2, ldap := ldap0 }

/-- The streaming handle produced by streaming_search on conn1: it carries
the cursor with both entries still pending and sees strong count 2. -/
def esLive : EntryStream :=
  { stream := { reqId := 1, remaining := [{ raw := 1 }, { raw := 2 }], finalRes := okResult },
    rtId := 7, rtStrong := 2 }

/-- The facade state streaming_search on conn1 leaves behind: same runtime,
strong count 2, session id advanced by the one issued message. -/
def connAfterStream : LdapConn :=
  { rtId := 7, rtStrong := 2, ldap := { ldap0 with lastId := 1 } }

/-- A streaming handle that holds the only reference to the runtime and
whose cursor is already exhausted. -/
def esDone : EntryStream :=
  { stream := { reqId := 5, remaining := [], finalRes := okResult },
    rtId := 3, rtStrong := 1 }

/-- A streaming handle holding the only runtime reference, with one entry
still pending: the sentinel has not been observed yet. -/
def esPending : EntryStream :=
  { stream := { reqId := 3, remaining := [{ raw := 42 }], finalRes := okResult },
    rtId := 7, rtStrong := 1 }

/-- C9: for every url (and every environment), constructing a connection with
new(url) yields the same result as constructing it with with_settings
applied to the default settings object and the same url, because new
delegates to with_settings with LdapConnSettings::new, which is the
default settings object. -/
theorem new_eq_with_settings_default (w : ConnectWorld) (url : String) :
    LdapConn.new w url = LdapConn.with_settings w LdapConnSettings.defaultSettings url :=
  rfl

/-- C10: each configuration setter overwrites only its own configuration
field of the session held by the connection with some of the supplied
value, and leaves the runtime (rtId, rtStrong) and session state (closed,
lastId, oracle) and the other two configuration fields unchanged. The
returned connection is the updated receiver itself, matching the mutable
reference to self that the Rust setters return. -/
theorem config_setters_frame (c : LdapConn) (opts : SearchOptions)
    (ctrls : List RawControl) (d : Duration) :
    (c.with_search_options opts).ldap.search_opts = some opts ∧
    (c.with_search_options opts).ldap.controls = c.ldap.controls ∧
    (c.with_search_options opts).ldap.timeout = c.ldap.timeout ∧
    (c.with_search_options opts).rtId = c.rtId ∧
    (c.with_search_options opts).rtStrong = c.rtStrong ∧
    (c.with_search_options opts).ldap.closed = c.ldap.closed ∧
    (c.with_search_options opts).ldap.lastId = c.ldap.lastId ∧
    (c.with_search_options opts).ldap.oracle = c.ldap.oracle ∧
    (c.with_controls ctrls).ldap.controls = some ctrls ∧
    (c.with_controls ctrls).ldap.search_opts = c.ldap.search_opts ∧
    (c.with_controls ctrls).ldap.timeout = c.ldap.timeout ∧
    (c.with_controls ctrls).rtId = c.rtId ∧
    (c.with_controls ctrls).rtStrong = c.rtStrong ∧
    (c.with_controls ctrls).ldap.closed = c.ldap.closed ∧
    (c.with_controls ctrls).ldap.lastId = c.ldap.lastId ∧
    (c.with_controls ctrls).ldap.oracle = c.ldap.oracle ∧
    (c.with_timeout d).ldap.timeout = some d ∧
    (c.with_timeout d).ldap.search_opts = c.ldap.search_opts ∧
    (c.with_timeout d).ldap.controls = c.ldap.controls ∧
    (c.with_timeout d).rtId = c.rtId ∧
    (c.with_timeout d).rtStrong = c.rtStrong ∧
    (c.with_timeout d).ldap.closed = c.ldap.closed ∧
    (c.with_timeout d).ldap.lastId = c.ldap.lastId ∧
    (c.with_timeout d).ldap.oracle = c.ldap.oracle :=
  ⟨rfl, rfl, rfl, rfl, rfl, rfl, rfl, rfl, rfl, rfl, rfl, rfl,
   rfl, rfl, rfl, rfl, rfl, rfl, rfl, rfl, rfl, rfl, rfl, rfl⟩

/-- C8: last_id on the facade is a plain value: it returns the id of the most
recently issued operation read from the session handle, it never consults
the driver (the result is unchanged under any strong count of the runtime
Arc, including counts under which every blocking verb would panic), and it
has no failure case (its codomain is RequestId itself). The last conjunct
shows the id is the one of the operation just issued: on any freshly built
open connection, after a bind the facade reports the id that the bind put
on the wire. -/
theorem last_id_plain_value (c : LdapConn) (n : Nat) (o : Oracle)
    (so : Option SearchOptions) (ct : Option (List RawControl)) (tmo : Option Duration)
    (i rid : Nat) (bind_dn bind_pw : String) :
    c.last_id = c.ldap.lastId ∧
    ({ c with rtStrong := n } : LdapConn).last_id = c.last_id ∧
    (({ rtId := rid, rtStrong := 1,
        ldap := { search_opts := so, controls := ct, timeout := tmo,
                  closed := false, lastId := i, oracle := o } } : LdapConn).simple_bind
        bind_dn bind_pw).2.1.last_id = i + 1 ∧
    (({ rtId := rid, rtStrong := 1,
        ldap := { search_opts := so, controls := ct, timeout := tmo,
                  closed := false, lastId := i, oracle := o } } : LdapConn).simple_bind
        bind_dn bind_pw).2.2 = [i + 1] := by
  refine ⟨rfl, rfl, ?_, ?_⟩ <;>
    simp [LdapConn.simple_bind, LdapConn.runOp, Ldap.simple_bind, LdapConn.last_id, Ldap.last_id]

/-- C3 counterexample: on a concrete streaming handle whose cursor still has
a pending entry (so no next call has observed the sentinel), calling the
finish operation (EntryStream::result) does not report any error at all:
its codomain is the plain LdapResult, and here it evaluates to the final
protocol result with code 0, not to a ProtocolSequenceError. A second call
is not even expressible against the source, whose receiver is by value. -/
theorem result_before_sentinel_no_sequence_error :
    esPending.result = okResult ∧ okResult.rc = 0 :=
  ⟨rfl, rfl⟩

/-- C3 (amended): result() consumes the handle, so calling it twice is
rejected by the type system rather than reported at runtime; calling it
before the sentinel has been observed is silently tolerated: it returns
the final protocol result of the search unchanged, regardless of how many
entries are still pending and regardless of the runtime strong count (it
never touches the driver, so it cannot panic), and it leaves the facade
state untouched since it takes no facade input. -/
theorem result_returns_final_result (es : EntryStream) (rem : List ResultEntry) (n : Nat) :
    es.result = es.stream.finalRes ∧
    ({ es with stream := { es.stream with remaining := rem } } : EntryStream).result
      = es.stream.finalRes ∧
    ({ es with rtStrong := n } : EntryStream).result = es.stream.finalRes :=
  ⟨rfl, rfl, rfl⟩

/-- C1 counterexample: on a concrete connection whose runtime Arc is shared
(strong count 2, the state a live streaming handle leaves the facade in),
simple_bind does not return the error kind ExclusiveAccessError (nor any
other value) to the caller: it panics with the runtime ref message of the
.expect in the source. -/
theorem simple_bind_shared_driver_panics :
    (conn2.simple_bind emptyStr emptyStr).1 = SyncResult.panicked runtimeRefMsg ∧
    (conn2.simple_bind emptyStr emptyStr).1
      ≠ SyncResult.ok (Except.error LdapError.ExclusiveAccessError) :=
  ⟨rfl, fun h => SyncResult.noConfusion h⟩

/-- C1 (amended): for every blocking facade or streaming-handle operation, if
exclusive access to the shared runtime cannot be obtained (Arc strong
count other than 1), the operation fails loudly by panicking with the
runtime ref message, performing no work, changing no state and touching
the network not at all; it neither silently serializes nor blocks, and it
does not return a DriverUnavailable or ExclusiveAccessError error value. -/
theorem exclusive_access_failure_panics_loudly {α : Type} (c : LdapConn)
    (es : EntryStream) (op : Ldap → α × Ldap × List NetMsg)
    (base filter : String) (scope : Scope) (attrs : List String)
    (hc : c.rtStrong ≠ 1) (hes : es.rtStrong ≠ 1) :
    c.runOp op = (SyncResult.panicked runtimeRefMsg, c, []) ∧
    es.next = (SyncResult.panicked runtimeRefMsg, es, []) ∧
    c.streaming_search base scope filter attrs = (SyncResult.panicked runtimeRefMsg, c, []) := by
  refine ⟨?_, ?_, ?_⟩ <;>
    simp [LdapConn.runOp, EntryStream.next, LdapConn.streaming_search, hc, hes]

/-- C1 witness: the amended statement evaluated on the concrete shared-count
connection and handle. -/
theorem exclusive_access_failure_panics_loudly_witness :
    conn2.runOp Ldap.unbind = (SyncResult.panicked runtimeRefMsg, conn2, []) ∧
    esLive.next = (SyncResult.panicked runtimeRefMsg, esLive, []) ∧
    conn2.streaming_search emptyStr Scope.subtree emptyStr []
      = (SyncResult.panicked runtimeRefMsg, conn2, []) :=
  exclusive_access_failure_panics_loudly conn2 esLive Ldap.unbind
    emptyStr emptyStr Scope.subtree [] (by decide) (by decide)

/-- C2: after unbind() returns successfully on an exclusively held open
facade, every subsequent method call on that facade returns the
SessionClosed error kind, changes nothing, and performs no network
activity (its message trace is empty); this holds for every modelled verb,
including a second unbind and a streaming-search start. -/
theorem after_unbind_all_calls_session_closed (c : LdapConn)
    (bind_dn bind_pw base filter dn : String) (scope : Scope) (attrs : List String)
    (msgid : RequestId) (hrt : c.rtStrong = 1) (hopen : c.ldap.closed = false) :
    (c.unbind).1 = SyncResult.ok (Except.ok ()) ∧
    ((c.unbind).2.1.simple_bind bind_dn bind_pw)
      = (SyncResult.ok (Except.error LdapError.SessionClosed), (c.unbind).2.1, []) ∧
    ((c.unbind).2.1.search base scope filter attrs)
      = (SyncResult.ok (Except.error LdapError.SessionClosed), (c.unbind).2.1, []) ∧
    ((c.unbind).2.1.delete dn)
      = (SyncResult.ok (Except.error LdapError.SessionClosed), (c.unbind).2.1, []) ∧
    ((c.unbind).2.1.abandon msgid)
      = (SyncResult.ok (Except.error LdapError.SessionClosed), (c.unbind).2.1, []) ∧
    ((c.unbind).2.1.streaming_search base scope filter attrs)
      = (SyncResult.ok (Except.error LdapError.SessionClosed), (c.unbind).2.1, []) ∧
    ((c.unbind).2.1.unbind)
      = (SyncResult.ok (Except.error LdapError.SessionClosed), (c.unbind).2.1, []) := by
  simp [LdapConn.unbind, LdapConn.simple_bind, LdapConn.search, LdapConn.delete,
        LdapConn.abandon, LdapConn.streaming_search, LdapConn.runOp,
        Ldap.unbind, Ldap.simple_bind, Ldap.search, Ldap.delete, Ldap.abandon,
        Ldap.streaming_search, hrt, hopen]

/-- C2 witness: the statement evaluated on the concrete open connection. -/
theorem after_unbind_all_calls_session_closed_witness :
    (conn1.unbind).1 = SyncResult.ok (Except.ok ()) ∧
    ((conn1.unbind).2.1.simple_bind emptyStr emptyStr)
      = (SyncResult.ok (Except.error LdapError.SessionClosed), (conn1.unbind).2.1, []) ∧
    ((conn1.unbind).2.1.search emptyStr Scope.base emptyStr [])
      = (SyncResult.ok (Except.error LdapError.SessionClosed), (conn1.unbind).2.1, []) ∧
    ((conn1.unbind).2.1.delete emptyStr)
      = (SyncResult.ok (Except.error LdapError.SessionClosed), (conn1.unbind).2.1, []) ∧
    ((conn1.unbind).2.1.abandon 0)
      = (SyncResult.ok (Except.error LdapError.SessionClosed), (conn1.unbind).2.1, []) ∧
    ((conn1.unbind).2.1.streaming_search emptyStr Scope.base emptyStr [])
      = (SyncResult.ok (Except.error LdapError.SessionClosed), (conn1.unbind).2.1, []) ∧
    ((conn1.unbind).2.1.unbind)
      = (SyncResult.ok (Except.error LdapError.SessionClosed), (conn1.unbind).2.1, []) :=
  after_unbind_all_calls_session_closed conn1 emptyStr emptyStr emptyStr emptyStr
    emptyStr Scope.base [] 0 rfl rfl

/-- C4 evaluation at the failing input: on the concrete connection conn1
(which holds the only reference to its runtime), streaming_search
succeeds and returns exactly the handle esLive, whose runtime Arc strong
count is 2 because the facade still holds its own reference; the very
first next() on that handle then panics with the runtime ref message
instead of yielding the first entry of the cursor. The documented
streaming workflow of the source therefore cannot produce the cursor
entries at all while the parent facade is alive. -/
theorem entrystream_next_panics_while_facade_live :
    (conn1.streaming_search emptyStr Scope.subtree emptyStr []).1
      = SyncResult.ok (Except.ok esLive) ∧
    esLive.rtStrong = 2 ∧
    esLive.stream.remaining = [{ raw := 1 }, { raw := 2 }] ∧
    esLive.next = (SyncResult.panicked runtimeRefMsg, esLive, []) :=
  ⟨rfl, rfl, rfl, rfl⟩

/-- C5: whenever streaming_search returns a streaming handle, that handle
references the same runtime instance as the facade that created it (equal
rtId), and no new scheduler is created: both sides merely see the strong
count of the one shared Arc allocation go up by one. -/
theorem streaming_search_shares_driver (c : LdapConn) (base filter : String)
    (scope : Scope) (attrs : List String) (es : EntryStream) (c2 : LdapConn)
    (msgs : List NetMsg)
    (h : c.streaming_search base scope filter attrs
          = (SyncResult.ok (Except.ok es), c2, msgs)) :
    es.rtId = c.rtId ∧ c2.rtId = c.rtId ∧
    es.rtStrong = c.rtStrong + 1 ∧ c2.rtStrong = c.rtStrong + 1 := by
  unfold LdapConn.streaming_search at h
  by_cases hrt : c.rtStrong = 1
  · rw [if_pos hrt] at h
    rcases hL : Ldap.streaming_search base scope filter attrs c.ldap with ⟨r, l2, ms⟩
    rw [hL] at h
    cases r with
    | error e => simp at h
    | ok s =>
      simp only [Prod.mk.injEq, SyncResult.ok.injEq, Except.ok.injEq] at h
      obtain ⟨h1, h2, h3⟩ := h
      subst h1; subst h2
      exact ⟨rfl, rfl, rfl, rfl⟩
  · rw [if_neg hrt] at h
    simp at h

/-- C5 witness: the sharing property evaluated on the concrete run of
streaming_search on conn1. -/
theorem streaming_search_shares_driver_witness :
    esLive.rtId = conn1.rtId ∧ connAfterStream.rtId = conn1.rtId ∧
    esLive.rtStrong = conn1.rtStrong + 1 ∧ connAfterStream.rtStrong = conn1.rtStrong + 1 :=
  streaming_search_shares_driver conn1 emptyStr emptyStr Scope.subtree []
    esLive connAfterStream [1] rfl

/-- C6: once next() on a streaming handle has returned the end-of-stream
sentinel, every further call to next() idempotently returns the sentinel
again, leaves the handle unchanged, and performs no protocol exchange
(its message trace is empty). -/
theorem next_after_sentinel_idempotent (es es2 : EntryStream) (m : List NetMsg)
    (h : es.next = (SyncResult.ok (Except.ok none), es2, m)) :
    es2.next = (SyncResult.ok (Except.ok none), es2, []) := by
  obtain ⟨⟨rid, rem, fin⟩, i, n⟩ := es
  by_cases hrt : n = 1
  · subst hrt
    cases rem with
    | nil =>
      simp [EntryStream.next, SearchStream.next] at h
      obtain ⟨h1, h2⟩ := h
      subst h1
      simp [EntryStream.next, SearchStream.next]
    | cons e rest =>
      simp [EntryStream.next, SearchStream.next] at h
  · simp [EntryStream.next, hrt] at h

/-- C6 witness: the idempotence applied to a concrete exhausted handle,
whose first sentinel-returning call is evaluated by rfl. -/
theorem next_after_sentinel_idempotent_witness :
    esDone.next = (SyncResult.ok (Except.ok none), esDone, []) :=
  next_after_sentinel_idempotent esDone esDone [] rfl

/-- C7: whenever exclusive access is obtainable, a blocking facade call
returns to the caller exactly the value the corresponding async session
operation resolves to: the generic delegation pattern surfaces the result
(success or error) verbatim, applies the async operation exactly once (the
resulting session state and network trace are those of that single
application, so there is no retry), and performs no error translation;
instances for the search and delete verbs are included. -/
theorem facade_surfaces_async_result_verbatim {α : Type} (c : LdapConn)
    (op : Ldap → α × Ldap × List NetMsg) (base filter dn : String) (scope : Scope)
    (attrs : List String) (hrt : c.rtStrong = 1) :
    c.runOp op = (SyncResult.ok (op c.ldap).1, { c with ldap := (op c.ldap).2.1 },
                  (op c.ldap).2.2) ∧
    (c.search base scope filter attrs).1
      = SyncResult.ok (Ldap.search base scope filter attrs c.ldap).1 ∧
    (c.delete dn).1 = SyncResult.ok (Ldap.delete dn c.ldap).1 := by
  refine ⟨?_, ?_, ?_⟩ <;> simp [LdapConn.runOp, LdapConn.search, LdapConn.delete, hrt]

/-- C7 witness: the verbatim-delegation statement evaluated on the concrete
exclusively held connection, with delete as the generic operation. -/
theorem facade_surfaces_async_result_verbatim_witness :
    conn1.runOp (Ldap.delete emptyStr)
      = (SyncResult.ok (Ldap.delete emptyStr conn1.ldap).1,
         { conn1 with ldap := (Ldap.delete emptyStr conn1.ldap).2.1 },
         (Ldap.delete emptyStr conn1.ldap).2.2) ∧
    (conn1.search emptyStr Scope.base emptyStr []).1
      = SyncResult.ok (Ldap.search emptyStr Scope.base emptyStr [] conn1.ldap).1 ∧
    (conn1.delete emptyStr).1 = SyncResult.ok (Ldap.delete emptyStr conn1.ldap).1 :=
  facade_surfaces_async_result_verbatim conn1 (Ldap.delete emptyStr) emptyStr emptyStr
    emptyStr Scope.base [] rfl

end LdapSync
